import Mathlib

/-!
# Verification of the mnemosine-back hierarchy store and reminder engine

A shallow embedding of the mnemosine-back API (FastAPI + MongoDB) into Lean 4.

* Calendar datetimes are modelled structurally (year/month/day/hour/minute),
  with the `dateutil.relativedelta` calendar arithmetic (`+1 day`, `+7 days`,
  `+1 month` with day clamping, `+1 year` with Feb-29 clamping) and `timedelta`
  minute subtraction reproduced exactly.
* Each MongoDB collection is a Lean list of documents; `find_one`, `delete_one`,
  `delete_many`, `update_one` and `count_documents` become list operations.
* FastAPI `HTTPException`s are modelled as `HTTPError` values carrying the
  status code and the detail string raised at the corresponding source line.
* `try/except Exception` blocks that convert any exception (including an
  `HTTPException` raised inside the `try`) into a fresh 400 response are
  modelled faithfully by wrapping the inner result.

Timestamps (`created_at` / `updated_at`) are omitted from the document models:
no verified property mentions them, and the embedded operations otherwise set
exactly the fields the source sets.
-/

/-! ## Calendar datetimes (Python `datetime` + `dateutil.relativedelta`) -/

/-- A naive calendar datetime with minute precision, as used by the backend
(`datetime.utcnow()` values compared and shifted with minute granularity). -/
structure DateTime where
  year : Nat
  month : Nat
  day : Nat
  hour : Nat
  minute : Nat
deriving DecidableEq, Repr

namespace DateTime

/-- Gregorian leap-year test. -/
def isLeap (y : Nat) : Bool :=
  (y % 4 == 0 && y % 100 != 0) || y % 400 == 0

/-- Number of days in a month of a given year. -/
def daysInMonth (y m : Nat) : Nat :=
  if m == 2 then (if isLeap y then 29 else 28)
  else if m == 4 || m == 6 || m == 9 || m == 11 then 30
  else 31

/-- Add one calendar day (`relativedelta(days=1)`), rolling over months and
years. -/
def addOneDay (d : DateTime) : DateTime :=
  if d.day < daysInMonth d.year d.month then
    { d with day := d.day + 1 }
  else if d.month < 12 then
    { d with month := d.month + 1, day := 1 }
  else
    { d with year := d.year + 1, month := 1, day := 1 }

/-- Add `n` calendar days. -/
def addDays : Nat → DateTime → DateTime
  | 0, d => d
  | n + 1, d => addDays n (addOneDay d)

/-- Add one calendar month (`relativedelta(months=1)`): increment the month,
clamping the day to the length of the target month. -/
def addOneMonth (d : DateTime) : DateTime :=
  let y := if d.month == 12 then d.year + 1 else d.year
  let m := if d.month == 12 then 1 else d.month + 1
  { d with year := y, month := m, day := min d.day (daysInMonth y m) }

/-- Add one calendar year (`relativedelta(years=1)`): increment the year,
clamping Feb 29 to Feb 28 in non-leap years. -/
def addOneYear (d : DateTime) : DateTime :=
  { d with year := d.year + 1,
           day := min d.day (daysInMonth (d.year + 1) d.month) }

/-- Subtract `n` whole days. -/
def subDays : Nat → DateTime → DateTime
  | 0, d => d
  | n + 1, d =>
      let d' :=
        if d.day > 1 then { d with day := d.day - 1 }
        else if d.month > 1 then
          { d with month := d.month - 1, day := daysInMonth d.year (d.month - 1) }
        else
          { d with year := d.year - 1, month := 12, day := 31 }
      subDays n d'

/-- Subtract `n` minutes (`timedelta(minutes=n)` subtraction), borrowing whole
days when the subtraction crosses midnight. -/
def subMinutes (n : Nat) (d : DateTime) : DateTime :=
  let mins := d.hour * 60 + d.minute
  if n ≤ mins then
    { d with hour := (mins - n) / 60, minute := (mins - n) % 60 }
  else
    let rem := n - mins
    let daysBack := (rem + 1439) / 1440
    let r := daysBack * 1440 - rem
    { subDays daysBack d with hour := r / 60, minute := r % 60 }

/-- Python `datetime` comparison: lexicographic on the components. -/
def le (a b : DateTime) : Bool :=
  if a.year != b.year then a.year < b.year
  else if a.month != b.month then a.month < b.month
  else if a.day != b.day then a.day < b.day
  else if a.hour != b.hour then a.hour < b.hour
  else a.minute ≤ b.minute

end DateTime

/-! ## Reminder documents (models.py) -/

/-- `EventReminder` document (`models.py`), stored in the `reminders`
collection.  Google-Calendar-linked reminder. -/
structure EventReminderDoc where
  rid : Nat
  user_id : Nat
  event_id : String
  event_title : String
  event_start : DateTime
  reminder_time : DateTime
  minutes_before : Nat
  sent : Bool
deriving DecidableEq, Repr

/-- `InternalReminder` document (`models.py`), stored in the
`internal_reminders` collection. -/
structure InternalReminderDoc where
  rid : Nat
  user_id : Nat
  title : String
  reminder_datetime : DateTime
  reminder_time : DateTime
  minutes_before : Nat
  description : Option String
  sent : Bool
  completed : Bool
  is_recurring : Bool
  recurrence_type : Option String
  recurrence_end_date : Option DateTime
deriving DecidableEq, Repr

/-- `EventReminderCreate` request payload (`models.py`).  Note that it has no
`reminder_time` field. -/
structure EventReminderCreatePayload where
  event_id : String
  event_title : String
  event_start : DateTime
  minutes_before : Nat
deriving DecidableEq, Repr

/-- `InternalReminderCreate` request payload (`models.py`).  It carries
recurrence fields, but `create_internal_reminder` ignores them.  It has no
`reminder_time` field. -/
structure InternalReminderCreatePayload where
  title : String
  reminder_datetime : DateTime
  minutes_before : Nat
  description : Option String
  is_recurring : Bool
  recurrence_type : Option String
  recurrence_end_date : Option DateTime
deriving DecidableEq, Repr

/-- `InternalReminderUpdate` request payload (`models.py`). -/
structure InternalReminderUpdatePayload where
  title : String
  reminder_datetime : DateTime
  minutes_before : Nat
  description : Option String
  completed : Option Bool
  is_recurring : Option Bool
  recurrence_type : Option String
  recurrence_end_date : Option DateTime
deriving DecidableEq, Repr

/-! ## Reminder routers (routers/reminders.py, routers/internal_reminders.py) -/

/-- `create_reminder` (routers/reminders.py): the document inserted for an
event reminder.  `reminder_time = event_start - timedelta(minutes=minutes_before)`. -/
def create_reminder (newId uid : Nat) (p : EventReminderCreatePayload) :
    EventReminderDoc :=
  { rid := newId
    user_id := uid
    event_id := p.event_id
    event_title := p.event_title
    event_start := p.event_start
    reminder_time := DateTime.subMinutes p.minutes_before p.event_start
    minutes_before := p.minutes_before
    sent := false }

/-- `create_internal_reminder` (routers/internal_reminders.py): the document
inserted for an internal reminder.  The `InternalReminder` constructor is
called without the recurrence fields, so the model defaults
`completed=False, is_recurring=False, recurrence_type=None,
recurrence_end_date=None` are stored. -/
def create_internal_reminder (newId uid : Nat)
    (p : InternalReminderCreatePayload) : InternalReminderDoc :=
  { rid := newId
    user_id := uid
    title := p.title
    reminder_datetime := p.reminder_datetime
    reminder_time := DateTime.subMinutes p.minutes_before p.reminder_datetime
    minutes_before := p.minutes_before
    description := p.description
    sent := false
    completed := false
    is_recurring := false
    recurrence_type := none
    recurrence_end_date := none }

/-- Mongo `update_one`: apply `f` to the first element satisfying `p`,
leave the rest unchanged. -/
def updateFirst {α : Type} (p : α → Bool) (f : α → α) : List α → List α
  | [] => []
  | x :: xs => if p x then f x :: xs else x :: updateFirst p f xs

/-- The `$set` document of `update_reminder` (routers/reminders.py, PUT
`/reminders/event/{event_id}`): recomputes `reminder_time` from the payload and
resets `sent`. -/
def update_reminder_set (p : EventReminderCreatePayload)
    (r : EventReminderDoc) : EventReminderDoc :=
  { r with
    event_title := p.event_title
    event_start := p.event_start
    reminder_time := DateTime.subMinutes p.minutes_before p.event_start
    minutes_before := p.minutes_before
    sent := false }

/-- `update_reminder` (routers/reminders.py): `update_one` on
`{event_id, user_id}` with `update_reminder_set`. -/
def update_reminder (uid : Nat) (eventId : String)
    (p : EventReminderCreatePayload) (db : List EventReminderDoc) :
    List EventReminderDoc :=
  updateFirst (fun r => r.event_id == eventId && r.user_id == uid)
    (update_reminder_set p) db

/-- The `$set` document of `update_internal_reminder`
(routers/internal_reminders.py): recomputes `reminder_time`, resets `sent`,
and updates `completed` only when the payload provides it. -/
def update_internal_reminder_set (p : InternalReminderUpdatePayload)
    (r : InternalReminderDoc) : InternalReminderDoc :=
  let base :=
    { r with
      title := p.title
      reminder_datetime := p.reminder_datetime
      reminder_time := DateTime.subMinutes p.minutes_before p.reminder_datetime
      minutes_before := p.minutes_before
      description := p.description
      sent := false }
  match p.completed with
  | some c => { base with completed := c }
  | none => base

/-- `update_internal_reminder` (routers/internal_reminders.py): `update_one`
on `{_id, user_id}` with `update_internal_reminder_set`. -/
def update_internal_reminder (uid rid : Nat)
    (p : InternalReminderUpdatePayload) (db : List InternalReminderDoc) :
    List InternalReminderDoc :=
  updateFirst (fun r => r.rid == rid && r.user_id == uid)
    (update_internal_reminder_set p) db

/-! ## The due-reminder scan (main.py, `check_reminders_endpoint`) -/

/-- Python truthiness of the `Optional[str]` field `recurrence_type`:
`None` and the empty string are falsy, every other string is truthy. -/
def strTruthy : Option String → Bool
  | none => false
  | some s => s ≠ ""

/-- The recurrence-type dispatch of `check_reminders_endpoint` (main.py):
`daily`→+1 day, `weekly`→+1 week, `monthly`→+1 month, `yearly`→+1 year,
anything else → `None`. -/
def nextDatetime (recurrenceType : String) (cur : DateTime) : Option DateTime :=
  if recurrenceType == "daily" then some (DateTime.addDays 1 cur)
  else if recurrenceType == "weekly" then some (DateTime.addDays 7 cur)
  else if recurrenceType == "monthly" then some (DateTime.addOneMonth cur)
  else if recurrenceType == "yearly" then some (DateTime.addOneYear cur)
  else none

/-- What `check_reminders_endpoint` (main.py) does to one due internal
reminder, given whether the Telegram dispatch reported success.

On dispatch failure the document is left untouched (retry next scan).  On
success: if `is_recurring` is truthy *and* `recurrence_type` is truthy, the
recurrence branch runs — it rolls the document forward when the computed next
occurrence exists and does not exceed `recurrence_end_date`, and otherwise
marks the series terminated (`sent=True, completed=True`); in all other cases
the document is just marked `sent=True`. -/
def internalReminderStep (r : InternalReminderDoc) (dispatchOk : Bool) :
    InternalReminderDoc :=
  if dispatchOk then
    if r.is_recurring && strTruthy r.recurrence_type then
      let nd :=
        match r.recurrence_type with
        | some rt => nextDatetime rt r.reminder_datetime
        | none => none
      match nd with
      | some next =>
          let shouldCreateNext :=
            match r.recurrence_end_date with
            | some endDate => DateTime.le next endDate
            | none => true
          if shouldCreateNext then
            { r with
              reminder_datetime := next
              reminder_time := DateTime.subMinutes r.minutes_before next
              sent := false
              completed := false }
          else
            { r with sent := true, completed := true }
      | none => { r with sent := true, completed := true }
    else
      { r with sent := true }
  else r

/-- The due filter of the scan (both collections):
`{"sent": False, "reminder_time": {"$lte": current_time}}`. -/
def internalDue (now : DateTime) (r : InternalReminderDoc) : Bool :=
  !r.sent && DateTime.le r.reminder_time now

/-- The internal-reminder half of `check_reminders_endpoint` (main.py): every
document matching the due filter is dispatched (the `dispatch` argument is the
Telegram collaborator's success signal for that document) and then processed
by `internalReminderStep`; non-due documents are untouched. -/
def check_internal_reminders (now : DateTime)
    (dispatch : InternalReminderDoc → Bool) (db : List InternalReminderDoc) :
    List InternalReminderDoc :=
  db.map (fun r => if internalDue now r then internalReminderStep r (dispatch r) else r)

/-! ## Hierarchy store documents (models.py) -/

/-- `Armario` document (models.py): top-level container. -/
structure ArmarioDoc where
  aid : Nat
  nombre : String
  descripcion : Option String
  owner_id : Nat
  is_default : Bool
deriving DecidableEq, Repr

/-- `Caja` document (models.py): second-level container, child of an Armario. -/
structure CajaDoc where
  cid : Nat
  nombre : String
  descripcion : Option String
  color : String
  owner_id : Nat
  armario_id : Nat
deriving DecidableEq, Repr

/-- `Cajita` document (models.py): third-level container, child of a Caja. -/
structure CajitaDoc where
  ctid : Nat
  nombre : String
  descripcion : Option String
  owner_id : Nat
  caja_id : Nat
deriving DecidableEq, Repr

/-- An attachment descriptor as embedded in a Nota's `attachments` array
(routers/attachments.py, `attachment_data`). -/
structure AttachmentData where
  attId : String
  filename : String
  file_type : String
  url : String
  cloudinary_id : Option String
  size : Option Nat
deriving DecidableEq, Repr

/-- `Nota` document (models.py + the `attachments` array pushed by
routers/attachments.py): leaf content unit, attached to a Caja or a Cajita
through `parent_id`/`parent_type`. -/
structure NotaDoc where
  nid : Nat
  titulo : String
  contenido : String
  etiquetas : List String
  attachments : List AttachmentData
  owner_id : Nat
  parent_id : Nat
  parent_type : String
deriving DecidableEq, Repr

/-- The document database: one list per collection. -/
structure Store where
  armarios : List ArmarioDoc
  cajas : List CajaDoc
  cajitas : List CajitaDoc
  notas : List NotaDoc
deriving DecidableEq, Repr

/-- A FastAPI `HTTPException`: status code and detail message, exactly as
raised at each source site. -/
structure HTTPError where
  status : Nat
  detail : String
deriving DecidableEq, Repr

/-- Result of a state-mutating endpoint: the post-state of the database and
either a value or the raised `HTTPError`.  Handlers that raise before writing
return the unchanged store with the error. -/
structure OpResult (α : Type) where
  state : Store
  out : Except HTTPError α
deriving Repr

/-! ## getById handlers (routers/cajas.py, cajitas.py, notas.py)

Each of these handlers wraps its whole body in `try/except Exception` and the
`except` arm unconditionally raises a fresh 400 error.  FastAPI's
`HTTPException` is itself an `Exception`, so the 404/403 raised inside the
`try` are swallowed and replaced by the 400 (unlike `delete_cajita` and
`move_nota`, whose `except` arms re-raise `HTTPException`s).  `innerX` below
is the `try` body; `get_X` is the handler including the `except` arm. -/

/-- `except Exception` arm that replaces any raised error with a fresh 400. -/
def swallowTo {α : Type} (e : HTTPError) : Except HTTPError α → Except HTTPError α
  | .ok v => .ok v
  | .error _ => .error e

/-- `try` body of `get_caja` (routers/cajas.py): find the caja by id (404 if
absent), then find the armario by `{_id: caja.armario_id, owner_id: user}`
(403 if absent). -/
def innerGetCaja (s : Store) (uid cajaId : Nat) : Except HTTPError CajaDoc :=
  match s.cajas.find? (fun c => c.cid == cajaId) with
  | none => .error ⟨404, "Caja no encontrada"⟩
  | some caja =>
    match s.armarios.find? (fun a => a.aid == caja.armario_id && a.owner_id == uid) with
    | none => .error ⟨403, "No tienes permisos para acceder a esta caja"⟩
    | some _ => .ok caja

/-- `get_caja` handler (routers/cajas.py), including the catch-all `except`. -/
def get_caja (s : Store) (uid cajaId : Nat) : Except HTTPError CajaDoc :=
  swallowTo ⟨400, "ID de caja inválido"⟩ (innerGetCaja s uid cajaId)

/-- `try` body of `get_cajita` (routers/cajitas.py): find the cajita (404),
its parent caja (404), then the armario scoped by owner (403). -/
def innerGetCajita (s : Store) (uid cajitaId : Nat) : Except HTTPError CajitaDoc :=
  match s.cajitas.find? (fun ct => ct.ctid == cajitaId) with
  | none => .error ⟨404, "Cajita no encontrada"⟩
  | some cajita =>
    match s.cajas.find? (fun c => c.cid == cajita.caja_id) with
    | none => .error ⟨404, "Caja padre no encontrada"⟩
    | some caja =>
      match s.armarios.find? (fun a => a.aid == caja.armario_id && a.owner_id == uid) with
      | none => .error ⟨403, "No tienes permisos para acceder a esta cajita"⟩
      | some _ => .ok cajita

/-- `get_cajita` handler (routers/cajitas.py), including the catch-all
`except`. -/
def get_cajita (s : Store) (uid cajitaId : Nat) : Except HTTPError CajitaDoc :=
  swallowTo ⟨400, "ID de cajita inválido"⟩ (innerGetCajita s uid cajitaId)

/-- `try` body of `get_nota` (routers/notas.py): a single `find_one` on
`{_id, owner_id}`; an existing nota owned by someone else and a nonexistent
nota both yield the same 404. -/
def innerGetNota (s : Store) (uid notaId : Nat) : Except HTTPError NotaDoc :=
  match s.notas.find? (fun n => n.nid == notaId && n.owner_id == uid) with
  | none => .error ⟨404, "Nota no encontrada"⟩
  | some nota => .ok nota

/-- `get_nota` handler (routers/notas.py), including the catch-all `except`. -/
def get_nota (s : Store) (uid notaId : Nat) : Except HTTPError NotaDoc :=
  swallowTo ⟨400, "ID de nota inválido"⟩ (innerGetNota s uid notaId)

/-! ## Cascade delete (routers/armarios.py, routers/cajitas.py) -/

/-- Mongo `delete_many({"parent_id": pid, "parent_type": pt})` on the notas
collection. -/
def removeNotasWithParent (pt : String) (pid : Nat) (ns : List NotaDoc) :
    List NotaDoc :=
  ns.filter (fun n => !(n.parent_type == pt && n.parent_id == pid))

/-- One iteration of the cajita loop in `delete_caja_content`
(routers/armarios.py): delete the notas attached to one cajita. -/
def deleteCajitaNotas (st : Store) (ct : CajitaDoc) : Store :=
  { st with notas := removeNotasWithParent "cajita" ct.ctid st.notas }

/-- `delete_caja_content` (routers/armarios.py): delete the notas directly
under the caja, then the notas of each of its cajitas, then the cajitas
themselves. -/
def delete_caja_content (cajaId : Nat) (s : Store) : Store :=
  let s1 : Store := { s with notas := removeNotasWithParent "caja" cajaId s.notas }
  let cajitasOf := s1.cajitas.filter (fun ct => ct.caja_id == cajaId)
  let s2 := cajitasOf.foldl deleteCajitaNotas s1
  { s2 with cajitas := s2.cajitas.filter (fun ct => !(ct.caja_id == cajaId)) }

/-- `delete_armario_content` (routers/armarios.py): run `delete_caja_content`
for every caja of the armario, then delete those cajas. -/
def delete_armario_content (armarioId : Nat) (s : Store) : Store :=
  let cajasOf := s.cajas.filter (fun c => c.armario_id == armarioId)
  let s1 := cajasOf.foldl (fun st c => delete_caja_content c.cid st) s
  { s1 with cajas := s1.cajas.filter (fun c => !(c.armario_id == armarioId)) }

/-- Mongo `delete_one`: remove the first element satisfying `p`. -/
def deleteOne {α : Type} (p : α → Bool) : List α → List α
  | [] => []
  | x :: xs => if p x then xs else x :: deleteOne p xs

/-- `delete_armario` handler (routers/armarios.py): find the armario scoped by
owner (404 if absent), cascade-delete its content, then `delete_one` the
armario itself.  The handler's catch-all `except` converts the inner 404 into
a 400. -/
def delete_armario (s : Store) (uid armarioId : Nat) : OpResult Unit :=
  match s.armarios.find? (fun a => a.aid == armarioId && a.owner_id == uid) with
  | none => { state := s, out := .error ⟨400, "ID de armario inválido"⟩ }
  | some _ =>
    let s1 := delete_armario_content armarioId s
    { state := { s1 with armarios := deleteOne (fun a => a.aid == armarioId) s1.armarios }
      out := .ok () }

/-- `delete_cajita` handler (routers/cajitas.py): resolve the cajita (404),
its caja (404), the owner's armario (403); if the cajita still has notas
(`count_documents > 0`) raise the non-empty-container 400 — the spec's
`Conflict` — otherwise `delete_one` the cajita.  This handler's `except` arm
re-raises `HTTPException`s, so the inner errors survive. -/
def delete_cajita (s : Store) (uid cajitaId : Nat) : OpResult Unit :=
  match s.cajitas.find? (fun ct => ct.ctid == cajitaId) with
  | none => { state := s, out := .error ⟨404, "Cajita no encontrada"⟩ }
  | some cajita =>
    match s.cajas.find? (fun c => c.cid == cajita.caja_id) with
    | none => { state := s, out := .error ⟨404, "Caja padre no encontrada"⟩ }
    | some caja =>
      match s.armarios.find? (fun a => a.aid == caja.armario_id && a.owner_id == uid) with
      | none => { state := s, out := .error ⟨403, "No tienes permisos para eliminar esta cajita"⟩ }
      | some _ =>
        if (s.notas.filter (fun n => n.parent_id == cajitaId && n.parent_type == "cajita")).length > 0 then
          { state := s
            out := .error ⟨400, "No se puede eliminar una cajita que contiene notas. Elimina primero todas las notas."⟩ }
        else
          { state := { s with cajitas := deleteOne (fun ct => ct.ctid == cajitaId) s.cajitas }
            out := .ok () }

/-! ## Nota move (routers/notas.py) -/

/-- `verify_container_permissions` (routers/notas.py): walk up from the target
container to its armario, scoped by the calling user; a missing link is a 404
and a root-ownership mismatch (the owner-scoped armario lookup finding
nothing) is a 403.  Returns `none` on success. -/
def verify_container_permissions (s : Store) (containerId : Nat)
    (containerType : String) (uid : Nat) : Option HTTPError :=
  if containerType == "caja" then
    match s.cajas.find? (fun c => c.cid == containerId) with
    | none => some ⟨404, "Caja no encontrada"⟩
    | some caja =>
      match s.armarios.find? (fun a => a.aid == caja.armario_id && a.owner_id == uid) with
      | none => some ⟨403, "No tienes permisos sobre esta caja"⟩
      | some _ => none
  else if containerType == "cajita" then
    match s.cajitas.find? (fun ct => ct.ctid == containerId) with
    | none => some ⟨404, "Cajita no encontrada"⟩
    | some cajita =>
      match s.cajas.find? (fun c => c.cid == cajita.caja_id) with
      | none => some ⟨404, "Caja padre no encontrada"⟩
      | some caja =>
        match s.armarios.find? (fun a => a.aid == caja.armario_id && a.owner_id == uid) with
        | none => some ⟨403, "No tienes permisos sobre esta cajita"⟩
        | some _ => none
  else none

/-- `move_nota` handler (routers/notas.py): validate the parent type, find the
nota scoped by owner (404), validate ownership of the **new** parent via
`verify_container_permissions`, and only then `update_one` the nota's
`parent_id`/`parent_type`.  This handler's `except` arm re-raises
`HTTPException`s, so the inner errors survive. -/
def move_nota (s : Store) (uid notaId : Nat) (newParentId : Nat)
    (newParentType : String) : OpResult Unit :=
  if !(newParentType == "caja" || newParentType == "cajita") then
    { state := s, out := .error ⟨400, "Tipo de contenedor inválido. Debe ser de tipo caja o cajita"⟩ }
  else
    match s.notas.find? (fun n => n.nid == notaId && n.owner_id == uid) with
    | none => { state := s, out := .error ⟨404, "Nota no encontrada"⟩ }
    | some _ =>
      match verify_container_permissions s newParentId newParentType uid with
      | some e => { state := s, out := .error e }
      | none =>
        { state := { s with
            notas := updateFirst (fun n => n.nid == notaId)
              (fun n => { n with parent_id := newParentId, parent_type := newParentType })
              s.notas }
          out := .ok () }

/-! ## Armario creation (routers/armarios.py, routers/auth.py) -/

/-- `ArmarioCreate` request payload (models.py). -/
structure ArmarioCreatePayload where
  nombre : String
  descripcion : Option String
  is_default : Bool
deriving DecidableEq, Repr

/-- `create_default_armario` (routers/armarios.py), invoked by
`register_user` (routers/auth.py) right after inserting the new user: inserts
an armario with `is_default=True` for the given owner. -/
def create_default_armario (newId uid : Nat) (s : Store) : Store :=
  { s with armarios := s.armarios ++
      [{ aid := newId
         nombre := "Mi Armario"
         descripcion := some "Armario principal para mis notas"
         owner_id := uid
         is_default := true }] }

/-- `create_armario` handler (routers/armarios.py): inserts an armario whose
`is_default` flag is taken verbatim from the request payload. -/
def create_armario (newId uid : Nat) (p : ArmarioCreatePayload) (s : Store) :
    Store :=
  { s with armarios := s.armarios ++
      [{ aid := newId
         nombre := p.nombre
         descripcion := p.descripcion
         owner_id := uid
         is_default := p.is_default }] }

/-- Number of default armarios a user owns. -/
def countDefaults (s : Store) (uid : Nat) : Nat :=
  (s.armarios.filter (fun a => a.owner_id == uid && a.is_default)).length

/-! ## Attachment manager (routers/attachments.py, utils/cloudinary_config.py) -/

/-- `MAX_FILE_SIZE_MB` (utils/cloudinary_config.py). -/
def MAX_FILE_SIZE_MB : Nat := 20

/-- `MAX_FILES_PER_NOTE` (utils/cloudinary_config.py). -/
def MAX_FILES_PER_NOTE : Nat := 3

/-- `ALLOWED_IMAGE_FORMATS` (utils/cloudinary_config.py). -/
def ALLOWED_IMAGE_FORMATS : List String :=
  ["jpg", "jpeg", "png", "gif", "webp", "heic", "heif", "bmp", "svg"]

/-- `ALLOWED_VIDEO_FORMATS` (utils/cloudinary_config.py). -/
def ALLOWED_VIDEO_FORMATS : List String :=
  ["mp4", "mov", "avi", "wmv", "flv", "webm"]

/-- `ALLOWED_DOCUMENT_FORMATS` (utils/cloudinary_config.py). -/
def ALLOWED_DOCUMENT_FORMATS : List String :=
  ["pdf", "doc", "docx", "txt", "xls", "xlsx", "ppt", "pptx"]

/-- Python `filename.split(".")[-1].lower()`. -/
def fileExtension (filename : String) : String :=
  ((filename.splitOn ".").getLastD filename).toLower

/-- `is_valid_file_format` (utils/cloudinary_config.py): returns
`(es_valido, tipo_archivo)`. -/
def is_valid_file_format (filename : String) : Bool × String :=
  let ext := fileExtension filename
  if ALLOWED_IMAGE_FORMATS.contains ext then (true, "image")
  else if ALLOWED_VIDEO_FORMATS.contains ext then (true, "video")
  else if ALLOWED_DOCUMENT_FORMATS.contains ext then (true, "document")
  else (false, "unknown")

/-- `is_valid_file_size` (utils/cloudinary_config.py): at most
`MAX_FILE_SIZE_MB * 1024 * 1024` bytes. -/
def is_valid_file_size (fileSizeBytes : Nat) : Bool :=
  fileSizeBytes ≤ MAX_FILE_SIZE_MB * 1024 * 1024

/-- An uploaded file: its name and byte count (the handler only inspects the
name and `len(file_content)`). -/
structure FilePayload where
  filename : String
  size : Nat
deriving DecidableEq, Repr

/-- What the Cloudinary storage collaborator returns for an upload
(`upload_file_to_cloudinary`): the fields the handler reads. -/
structure CloudUpload where
  url : String
  public_id : String
deriving DecidableEq, Repr

/-- Result of `upload_attachment`: post-state, response or raised error, and
whether the handler delegated an upload to the storage collaborator
(`upload_file_to_cloudinary` was invoked). -/
structure UploadOutcome where
  state : Store
  out : Except HTTPError AttachmentData
  uploadedToStorage : Bool
deriving Repr

/-- Char-list prefix test. -/
def startsWithChars : List Char → List Char → Bool
  | [], _ => true
  | _ :: _, [] => false
  | a :: as, b :: bs => a == b && startsWithChars as bs

/-- Char-list substring test. -/
def containsChars (needle : List Char) : List Char → Bool
  | [] => needle.isEmpty
  | b :: bs => startsWithChars needle (b :: bs) || containsChars needle bs

/-- Python `needle in haystack` on strings. -/
def strContains (haystack needle : String) : Bool :=
  containsChars needle.toList haystack.toList

/-- `upload_attachment` handler (routers/attachments.py): resolve the nota
scoped by owner (404); reject when the attachment list already has
`MAX_FILES_PER_NOTE` entries (400, before any upload); for a file, check the
format allow-list and the size ceiling, upload to Cloudinary and build the
descriptor; for a link, infer `youtube`/`link` from the URL when the kind is
absent or invalid; with neither, 400.  On success, `$push` the descriptor onto
the nota.  `cloud` is the storage collaborator, `freshId` the generated
descriptor id. -/
def upload_attachment (s : Store) (uid notaId : Nat) (file : Option FilePayload)
    (linkUrl : Option String) (linkType : Option String) (freshId : String)
    (cloud : FilePayload → CloudUpload) : UploadOutcome :=
  match s.notas.find? (fun n => n.nid == notaId && n.owner_id == uid) with
  | none => { state := s, out := .error ⟨404, "Nota no encontrada"⟩, uploadedToStorage := false }
  | some nota =>
    if nota.attachments.length ≥ MAX_FILES_PER_NOTE then
      { state := s
        out := .error ⟨400, "Máximo " ++ toString MAX_FILES_PER_NOTE ++ " archivos por nota"⟩
        uploadedToStorage := false }
    else
      match file with
      | some f =>
        let fmt := is_valid_file_format f.filename
        if !fmt.1 then
          { state := s, out := .error ⟨400, "Formato de archivo no permitido"⟩, uploadedToStorage := false }
        else if !is_valid_file_size f.size then
          { state := s
            out := .error ⟨400, "El archivo excede el límite de " ++ toString MAX_FILE_SIZE_MB ++ "MB"⟩
            uploadedToStorage := false }
        else
          let cu := cloud f
          let att : AttachmentData :=
            { attId := freshId
              filename := f.filename
              file_type := fmt.2
              url := cu.url
              cloudinary_id := some cu.public_id
              size := some f.size }
          { state := { s with
              notas := updateFirst (fun n => n.nid == notaId)
                (fun n => { n with attachments := n.attachments ++ [att] }) s.notas }
            out := .ok att
            uploadedToStorage := true }
      | none =>
        match linkUrl with
        | some u =>
          let lt :=
            match linkType with
            | some t => if t == "link" || t == "youtube" then t
                        else if strContains u "youtube.com" || strContains u "youtu.be" then "youtube" else "link"
            | none => if strContains u "youtube.com" || strContains u "youtu.be" then "youtube" else "link"
          let att : AttachmentData :=
            { attId := freshId
              filename := u
              file_type := lt
              url := u
              cloudinary_id := none
              size := none }
          { state := { s with
              notas := updateFirst (fun n => n.nid == notaId)
                (fun n => { n with attachments := n.attachments ++ [att] }) s.notas }
            out := .ok att
            uploadedToStorage := false }
        | none =>
          { state := s, out := .error ⟨400, "Debe proporcionar un archivo o un enlace"⟩, uploadedToStorage := false }

/-! ## General lemmas about the Mongo-operation models -/

theorem mem_updateFirst {α : Type} {p : α → Bool} {f : α → α} :
    ∀ {l : List α} {y : α}, y ∈ updateFirst p f l → y ∈ l ∨ ∃ x ∈ l, y = f x := by
  intro l
  induction l with
  | nil => intro y h; cases h
  | cons a as ih =>
    intro y h
    by_cases hp : p a = true
    · simp only [updateFirst, hp, if_true] at h
      rcases List.mem_cons.mp h with h1 | h2
      · exact Or.inr ⟨a, List.mem_cons_self a as, h1⟩
      · exact Or.inl (List.mem_cons_of_mem a h2)
    · simp only [updateFirst, hp, if_false] at h
      rcases List.mem_cons.mp h with h1 | h2
      · exact Or.inl (h1 ▸ List.mem_cons_self a as)
      · rcases ih h2 with h3 | ⟨x, hx, hy⟩
        · exact Or.inl (List.mem_cons_of_mem a h3)
        · exact Or.inr ⟨x, List.mem_cons_of_mem a hx, hy⟩

theorem map_updateFirst {α β : Type} {p : α → Bool} {f : α → α} {g : α → β}
    (hg : ∀ x, g (f x) = g x) :
    ∀ l : List α, (updateFirst p f l).map g = l.map g := by
  intro l
  induction l with
  | nil => rfl
  | cons a as ih =>
    by_cases hp : p a = true
    · simp [updateFirst, hp, hg]
    · simp [updateFirst, hp, ih]

theorem find?_deleteOne_eq_none {α : Type} {key : α → Nat} {k : Nat} :
    ∀ {l : List α}, (l.map key).Nodup →
      (deleteOne (fun x => key x == k) l).find? (fun x => key x == k) = none := by
  intro l
  induction l with
  | nil => intro _; rfl
  | cons a as ih =>
    intro hnd
    rw [List.map_cons, List.nodup_cons] at hnd
    by_cases hp : (key a == k) = true
    · have hak : key a = k := by simpa using hp
      simp only [deleteOne, hp, if_true]
      rw [List.find?_eq_none]
      intro x hx hkx
      have hxk : key x = k := by simpa using hkx
      exact hnd.1 (hak ▸ hxk ▸ List.mem_map_of_mem key hx)
    · have hstep : deleteOne (fun x => key x == k) (a :: as) =
          a :: deleteOne (fun x => key x == k) as := by
        simp [deleteOne, hp]
      rw [hstep]
      have hfind : (a :: deleteOne (fun x => key x == k) as).find?
          (fun x => key x == k) = (deleteOne (fun x => key x == k) as).find?
          (fun x => key x == k) := by
        simp [List.find?, Bool.of_not_eq_true hp]
      rw [hfind, ih hnd.2]

/-! ## C3: the public create operation cannot establish a recurrence -/

/-- C3: for every create request on internal reminders — whatever recurrence
fields the payload carries — the stored document has `is_recurring = false`,
`recurrence_type = null` and `recurrence_end_date = null`: `create_internal_reminder`
never reads the payload's recurrence descriptor. -/
theorem create_internal_reminder_ignores_recurrence (newId uid : Nat)
    (p : InternalReminderCreatePayload) :
    (create_internal_reminder newId uid p).is_recurring = false ∧
    (create_internal_reminder newId uid p).recurrence_type = none ∧
    (create_internal_reminder newId uid p).recurrence_end_date = none :=
  ⟨rfl, rfl, rfl⟩

/-! ## C7: `reminder_time` is always derived, never client-supplied -/

/-- C7: for both reminder kinds and for every create and update request, the
stored `reminder_time` equals the anchor instant (`event_start` for event
reminders, `reminder_datetime` for internal reminders) minus `minutes_before`
minutes.  The payload types have no `reminder_time` field, so it is never set
from a client-supplied value; for the updates, every document the operation
touches (any document of the result that is not an untouched document of the
input) satisfies the contract against the payload's anchor. -/
theorem reminder_time_derived_contract :
    (∀ newId uid p, (create_reminder newId uid p).reminder_time =
        DateTime.subMinutes p.minutes_before p.event_start) ∧
    (∀ newId uid p, (create_internal_reminder newId uid p).reminder_time =
        DateTime.subMinutes p.minutes_before p.reminder_datetime) ∧
    (∀ uid eventId p db r', r' ∈ update_reminder uid eventId p db →
        r' ∈ db ∨ (r'.event_start = p.event_start ∧ r'.minutes_before = p.minutes_before ∧
          r'.reminder_time = DateTime.subMinutes p.minutes_before p.event_start)) ∧
    (∀ uid rid p db r', r' ∈ update_internal_reminder uid rid p db →
        r' ∈ db ∨ (r'.reminder_datetime = p.reminder_datetime ∧ r'.minutes_before = p.minutes_before ∧
          r'.reminder_time = DateTime.subMinutes p.minutes_before p.reminder_datetime)) := by
  refine ⟨fun _ _ _ => rfl, fun _ _ _ => rfl, ?_, ?_⟩
  · intro uid eventId p db r' hmem
    rcases mem_updateFirst hmem with h | ⟨x, _, rfl⟩
    · exact Or.inl h
    · exact Or.inr ⟨rfl, rfl, rfl⟩
  · intro uid rid p db r' hmem
    rcases mem_updateFirst hmem with h | ⟨x, _, rfl⟩
    · exact Or.inl h
    · cases hc : p.completed <;>
        simp [update_internal_reminder_set, hc]

/-- Sample event-reminder payload and stored document for the C7 witness. -/
def wEventPayload : EventReminderCreatePayload :=
  { event_id := "ev1", event_title := "Meeting", event_start := ⟨2024, 5, 1, 12, 0⟩,
    minutes_before := 15 }

/-- Sample stored event reminder for the C7 witness. -/
def wEventDoc : EventReminderDoc :=
  { rid := 1, user_id := 7, event_id := "ev1", event_title := "Old",
    event_start := ⟨2024, 4, 1, 12, 0⟩, reminder_time := ⟨2024, 4, 1, 11, 45⟩,
    minutes_before := 15, sent := true }

/-- Witness for C7: the update contract evaluated on a concrete database of
one event reminder. -/
theorem reminder_time_derived_contract_witness :
    (update_reminder_set wEventPayload wEventDoc ∈
        update_reminder 7 "ev1" wEventPayload [wEventDoc]) ∧
    (update_reminder_set wEventPayload wEventDoc ∈ [wEventDoc] ∨
      ((update_reminder_set wEventPayload wEventDoc).event_start = wEventPayload.event_start ∧
       (update_reminder_set wEventPayload wEventDoc).minutes_before = wEventPayload.minutes_before ∧
       (update_reminder_set wEventPayload wEventDoc).reminder_time =
         DateTime.subMinutes wEventPayload.minutes_before wEventPayload.event_start)) :=
  ⟨by decide,
   reminder_time_derived_contract.2.2.1 7 "ev1" wEventPayload [wEventDoc]
     (update_reminder_set wEventPayload wEventDoc) (by decide)⟩

/-! ## A small concrete hierarchy used by witnesses and counterexamples -/

/-- User 1's armario. -/
def demoArmario : ArmarioDoc :=
  { aid := 1, nombre := "Mi Armario", descripcion := none, owner_id := 1, is_default := true }

/-- User 2's armario. -/
def demoArmario2 : ArmarioDoc :=
  { aid := 2, nombre := "Otro Armario", descripcion := none, owner_id := 2, is_default := true }

/-- User 1's caja, under `demoArmario`. -/
def demoCaja : CajaDoc :=
  { cid := 10, nombre := "Caja", descripcion := none, color := "#6366f1",
    owner_id := 1, armario_id := 1 }

/-- User 2's caja, under `demoArmario2`. -/
def demoCaja2 : CajaDoc :=
  { cid := 11, nombre := "Caja ajena", descripcion := none, color := "#6366f1",
    owner_id := 2, armario_id := 2 }

/-- User 1's cajita, under `demoCaja`. -/
def demoCajita : CajitaDoc :=
  { ctid := 20, nombre := "Cajita", descripcion := none, owner_id := 1, caja_id := 10 }

/-- A nota of user 1 attached to `demoCaja`. -/
def demoNotaCaja : NotaDoc :=
  { nid := 30, titulo := "Nota en caja", contenido := "c", etiquetas := [],
    attachments := [], owner_id := 1, parent_id := 10, parent_type := "caja" }

/-- A nota of user 1 attached to `demoCajita`. -/
def demoNotaCajita : NotaDoc :=
  { nid := 31, titulo := "Nota en cajita", contenido := "c", etiquetas := [],
    attachments := [], owner_id := 1, parent_id := 20, parent_type := "cajita" }

deriving instance DecidableEq for Except

/-- Two users, each owning a chain; user 1's cajita holds a nota. -/
def demoStore : Store :=
  { armarios := [demoArmario, demoArmario2]
    cajas := [demoCaja, demoCaja2]
    cajitas := [demoCajita]
    notas := [demoNotaCaja, demoNotaCajita] }

/-! ## C4: getById error taxonomy (NotFound / Forbidden / ok) -/

/-- C4 (failing input): the `getById` handlers compute the claimed distinct
outcomes *inside* their `try` blocks — `innerGetCajita` yields 403 for a
foreign owner and 404 for a missing id, and `innerGetNota` already collapses a
foreign owner into 404 because its single `find_one` filters on
`owner_id` — but the catch-all `except Exception` arm of each handler also
catches those `HTTPException`s and re-raises a 400 "invalid id" error, so
every failure of `get_caja`/`get_cajita`/`get_nota` surfaces as the same 400,
conflating NotFound and Forbidden.  Evaluated here on `demoStore`: user 1 owns
cajita 20 and nota 31; user 2 is a different authenticated user; ids 999 do
not exist. -/
theorem getById_error_conflation :
    get_cajita demoStore 1 20 = .ok demoCajita ∧
    get_nota demoStore 1 31 = .ok demoNotaCajita ∧
    innerGetCajita demoStore 2 20 =
      .error ⟨403, "No tienes permisos para acceder a esta cajita"⟩ ∧
    get_cajita demoStore 2 20 = .error ⟨400, "ID de cajita inválido"⟩ ∧
    innerGetCajita demoStore 2 999 = .error ⟨404, "Cajita no encontrada"⟩ ∧
    get_cajita demoStore 2 999 = .error ⟨400, "ID de cajita inválido"⟩ ∧
    get_caja demoStore 2 10 = .error ⟨400, "ID de caja inválido"⟩ ∧
    innerGetNota demoStore 2 31 = .error ⟨404, "Nota no encontrada"⟩ ∧
    get_nota demoStore 2 31 = .error ⟨400, "ID de nota inválido"⟩ ∧
    get_nota demoStore 2 999 = .error ⟨400, "ID de nota inválido"⟩ := by
  decide

/-! ## C6: a non-empty cajita cannot be deleted -/

/-- C6: deleting a Cajita that still has at least one Nota with
`parent_type = "cajita"` and `parent_id` equal to that cajita fails with the
non-empty-container error (the spec taxonomy's `Conflict`; HTTP 400 with the
dedicated message, distinct from every NotFound/Forbidden error in the
handler) and performs no deletion: the store is returned unchanged. -/
theorem delete_cajita_nonempty_blocked
    (s : Store) (uid cajitaId : Nat) (ct : CajitaDoc) (caja : CajaDoc) (a : ArmarioDoc)
    (hct : s.cajitas.find? (fun x => x.ctid == cajitaId) = some ct)
    (hcaja : s.cajas.find? (fun c => c.cid == ct.caja_id) = some caja)
    (ha : s.armarios.find? (fun x => x.aid == caja.armario_id && x.owner_id == uid) = some a)
    (n : NotaDoc) (hn : n ∈ s.notas) (hnt : n.parent_type = "cajita")
    (hnp : n.parent_id = cajitaId) :
    delete_cajita s uid cajitaId =
      { state := s
        out := .error ⟨400, "No se puede eliminar una cajita que contiene notas. Elimina primero todas las notas."⟩ } := by
  simp only [delete_cajita, hct, hcaja, ha]
  have hmem : n ∈ s.notas.filter (fun x => x.parent_id == cajitaId && x.parent_type == "cajita") := by
    rw [List.mem_filter]
    exact ⟨hn, by simp [hnp, hnt]⟩
  rw [if_pos (List.length_pos.mpr (List.ne_nil_of_mem hmem))]

/-- Witness for C6: deleting user 1's cajita 20, which holds nota 31, on the
concrete `demoStore`. -/
theorem delete_cajita_nonempty_blocked_witness :
    delete_cajita demoStore 1 20 =
      { state := demoStore
        out := .error ⟨400, "No se puede eliminar una cajita que contiene notas. Elimina primero todas las notas."⟩ } :=
  delete_cajita_nonempty_blocked demoStore 1 20 demoCajita demoCaja demoArmario
    (by decide) (by decide) (by decide) demoNotaCajita (by decide) (by decide) (by decide)

/-! ## C8: moving a nota to a foreign container is forbidden and mutation-free -/

/-- C8: for every move request whose new parent (Caja or Cajita) belongs,
via its ownership chain, to a different user than the caller — i.e. every
armario matching the chain's `armario_id` has a different owner — `move_nota`
fails with the 403 Forbidden from `verify_container_permissions` and returns
the store unchanged (the nota's `parent_id`/`parent_type` are untouched);
moreover, on *every* input, `move_nota` preserves each nota's `owner_id`
(a move never re-owns a note, and ownership of the new parent is validated
before the `update_one`). -/
theorem move_nota_foreign_parent_forbidden :
    (∀ (s : Store) (uid notaId newParentId : Nat) (nta : NotaDoc) (caja : CajaDoc),
      s.notas.find? (fun n => n.nid == notaId && n.owner_id == uid) = some nta →
      s.cajas.find? (fun c => c.cid == newParentId) = some caja →
      (∀ a ∈ s.armarios, a.aid = caja.armario_id → a.owner_id ≠ uid) →
      move_nota s uid notaId newParentId "caja" =
        { state := s, out := .error ⟨403, "No tienes permisos sobre esta caja"⟩ }) ∧
    (∀ (s : Store) (uid notaId newParentId : Nat) (nta : NotaDoc) (ct : CajitaDoc) (caja : CajaDoc),
      s.notas.find? (fun n => n.nid == notaId && n.owner_id == uid) = some nta →
      s.cajitas.find? (fun x => x.ctid == newParentId) = some ct →
      s.cajas.find? (fun c => c.cid == ct.caja_id) = some caja →
      (∀ a ∈ s.armarios, a.aid = caja.armario_id → a.owner_id ≠ uid) →
      move_nota s uid notaId newParentId "cajita" =
        { state := s, out := .error ⟨403, "No tienes permisos sobre esta cajita"⟩ }) ∧
    (∀ (s : Store) (uid notaId newParentId : Nat) (newParentType : String),
      (move_nota s uid notaId newParentId newParentType).state.notas.map
          (fun n => (n.nid, n.owner_id)) =
        s.notas.map (fun n => (n.nid, n.owner_id))) := by
  refine ⟨?_, ?_, ?_⟩
  · intro s uid notaId newParentId nta caja hn hcaja hown
    have hv : verify_container_permissions s newParentId "caja" uid =
        some ⟨403, "No tienes permisos sobre esta caja"⟩ := by
      have hnone : s.armarios.find?
          (fun a => a.aid == caja.armario_id && a.owner_id == uid) = none := by
        rw [List.find?_eq_none]
        intro a ha
        simp only [Bool.and_eq_true, beq_iff_eq, not_and]
        exact fun h1 h2 => hown a ha h1 h2
      simp only [verify_container_permissions, if_pos (by decide : (("caja":String) == "caja") = true),
        hcaja, hnone]
    simp only [move_nota, hn, hv]
    rw [if_neg (by decide)]
  · intro s uid notaId newParentId nta ct caja hn hct hcaja hown
    have hv : verify_container_permissions s newParentId "cajita" uid =
        some ⟨403, "No tienes permisos sobre esta cajita"⟩ := by
      have hnone : s.armarios.find?
          (fun a => a.aid == caja.armario_id && a.owner_id == uid) = none := by
        rw [List.find?_eq_none]
        intro a ha
        simp only [Bool.and_eq_true, beq_iff_eq, not_and]
        exact fun h1 h2 => hown a ha h1 h2
      simp [verify_container_permissions, hct, hcaja, hnone]
    simp only [move_nota, hn, hv]
    rw [if_neg (by decide)]
  · intro s uid notaId newParentId newParentType
    unfold move_nota
    split
    · rfl
    · split
      · rfl
      · split
        · rfl
        · dsimp only
          apply map_updateFirst
          intro x
          rfl

/-- Witness for C8: user 1 tries to move their nota 31 into user 2's caja 11
on `demoStore`. -/
theorem move_nota_foreign_parent_forbidden_witness :
    move_nota demoStore 1 31 11 "caja" =
      { state := demoStore, out := .error ⟨403, "No tienes permisos sobre esta caja"⟩ } :=
  move_nota_foreign_parent_forbidden.1 demoStore 1 31 11 demoNotaCajita demoCaja2
    (by decide) (by decide) (by decide)

/-! ## C9: the per-note attachment cap -/

/-- C9: when the target nota's attachment list already holds
`MAX_FILES_PER_NOTE = 3` entries, `upload_attachment` fails with the 400
InvalidInput cap error, returns the store unchanged (the list length stays 3),
and never invokes the storage collaborator — the cap check runs before any
format/size validation or upload, for files and links alike. -/
theorem upload_attachment_cap_enforced
    (s : Store) (uid notaId : Nat) (file : Option FilePayload)
    (linkUrl linkType : Option String) (freshId : String)
    (cloud : FilePayload → CloudUpload) (nta : NotaDoc)
    (hfind : s.notas.find? (fun n => n.nid == notaId && n.owner_id == uid) = some nta)
    (hlen : nta.attachments.length = 3) :
    upload_attachment s uid notaId file linkUrl linkType freshId cloud =
      { state := s, out := .error ⟨400, "Máximo 3 archivos por nota"⟩
        uploadedToStorage := false } := by
  have hmsg : "Máximo " ++ toString MAX_FILES_PER_NOTE ++ " archivos por nota" =
      "Máximo 3 archivos por nota" := by decide
  simp only [upload_attachment, hfind]
  rw [if_pos (by rw [hlen]; decide), hmsg]

/-- A stored nota of user 1 already holding three attachments. -/
def demoFullNota : NotaDoc :=
  { nid := 40, titulo := "Llena", contenido := "c", etiquetas := [],
    attachments :=
      [{ attId := "a1", filename := "f1.jpg", file_type := "image", url := "u1",
         cloudinary_id := some "c1", size := some 10 },
       { attId := "a2", filename := "f2.jpg", file_type := "image", url := "u2",
         cloudinary_id := some "c2", size := some 10 },
       { attId := "a3", filename := "f3.pdf", file_type := "document", url := "u3",
         cloudinary_id := some "c3", size := some 10 }]
    owner_id := 1, parent_id := 10, parent_type := "caja" }

/-- Store for the C9 witness: user 1's chain with the full nota. -/
def demoStoreFull : Store :=
  { armarios := [demoArmario], cajas := [demoCaja], cajitas := [], notas := [demoFullNota] }

/-- Witness for C9: a fourth (file) attachment on the concrete full nota. -/
theorem upload_attachment_cap_enforced_witness :
    upload_attachment demoStoreFull 1 40 (some { filename := "f4.png", size := 5 })
        none none "a4" (fun _ => { url := "u4", public_id := "c4" }) =
      { state := demoStoreFull, out := .error ⟨400, "Máximo 3 archivos por nota"⟩
        uploadedToStorage := false } :=
  upload_attachment_cap_enforced demoStoreFull 1 40 (some { filename := "f4.png", size := 5 })
    none none "a4" (fun _ => { url := "u4", public_id := "c4" }) demoFullNota
    (by decide) (by decide)

/-! ## C10: the one-default-armario-per-user invariant -/

/-- C10 (counterexample): starting from the state registration leaves a fresh
user 1 in (exactly the automatically created default armario), one public
`create_armario` request whose payload carries `is_default = true` yields a
state with **two** default armarios for user 1 — the handler stores the
client-supplied flag verbatim — refuting the claim that no public operation
can make the count exceed one. -/
theorem default_armario_counterexample :
    countDefaults
      (create_armario 2 1 { nombre := "Segundo", descripcion := none, is_default := true }
        (create_default_armario 1 1 { armarios := [], cajas := [], cajitas := [], notas := [] })) 1
      = 2 := by
  decide

/-- C10 (amended): registration's `create_default_armario` always adds exactly
one default armario for the user; a `create_armario` request preserves the
user's default count when its payload has `is_default = false`, but increments
it when the payload has `is_default = true` — so the exactly-one invariant
holds right after registration yet is not preserved by the public create
operation. -/
theorem default_armario_counts :
    (∀ (s : Store) (uid newId : Nat),
      countDefaults (create_default_armario newId uid s) uid = countDefaults s uid + 1) ∧
    (∀ (s : Store) (uid newId : Nat) (p : ArmarioCreatePayload), p.is_default = false →
      countDefaults (create_armario newId uid p s) uid = countDefaults s uid) ∧
    (∀ (s : Store) (uid newId : Nat) (p : ArmarioCreatePayload), p.is_default = true →
      countDefaults (create_armario newId uid p s) uid = countDefaults s uid + 1) := by
  refine ⟨?_, ?_, ?_⟩
  · intro s uid newId
    simp [countDefaults, create_default_armario, List.filter_append]
  · intro s uid newId p hp
    simp [countDefaults, create_armario, List.filter_append, hp]
  · intro s uid newId p hp
    simp [countDefaults, create_armario, List.filter_append, hp]

/-- Witness for C10's amended theorem: a non-default create on `demoStore`
leaves user 1's default count unchanged. -/
theorem default_armario_counts_witness :
    countDefaults
        (create_armario 3 1 { nombre := "N", descripcion := none, is_default := false }
          demoStore) 1 =
      countDefaults demoStore 1 :=
  default_armario_counts.2.1 demoStore 1 3
    { nombre := "N", descripcion := none, is_default := false } rfl

/-! ## Helper lemmas for the recurrence claims -/

theorem check_internal_reminders_get (now : DateTime)
    (dispatch : InternalReminderDoc → Bool) (db : List InternalReminderDoc)
    (i : Nat) (h : i < db.length)
    (hlen : i < (check_internal_reminders now dispatch db).length) :
    (check_internal_reminders now dispatch db).get ⟨i, hlen⟩ =
      if internalDue now (db.get ⟨i, h⟩) then
        internalReminderStep (db.get ⟨i, h⟩) (dispatch (db.get ⟨i, h⟩))
      else db.get ⟨i, h⟩ := by
  simp [check_internal_reminders, List.get_eq_getElem, List.getElem_map]

theorem internalReminderStep_roll (r : InternalReminderDoc) (rt : String)
    (next : DateTime) (hrec : r.is_recurring = true)
    (hrt : r.recurrence_type = some rt)
    (hnext : nextDatetime rt r.reminder_datetime = some next)
    (hend : ∀ endD, r.recurrence_end_date = some endD → DateTime.le next endD = true) :
    internalReminderStep r true =
      { r with
        reminder_datetime := next
        reminder_time := DateTime.subMinutes r.minutes_before next
        sent := false
        completed := false } := by
  have hne : rt ≠ "" := by
    intro h0
    rw [h0] at hnext
    simp [nextDatetime] at hnext
  have htr : strTruthy (some rt) = true := by
    simpa [strTruthy] using hne
  cases hed : r.recurrence_end_date with
  | none => simp [internalReminderStep, hrec, hrt, hnext, hed, htr]
  | some endD => simp [internalReminderStep, hrec, hrt, hnext, hed, htr, hend endD hed]

theorem internalReminderStep_terminate_unrecognized (r : InternalReminderDoc)
    (rt : String) (hrec : r.is_recurring = true)
    (hrt : r.recurrence_type = some rt) (hne : rt ≠ "")
    (hnone : nextDatetime rt r.reminder_datetime = none) :
    internalReminderStep r true = { r with sent := true, completed := true } := by
  have htr : strTruthy (some rt) = true := by
    simpa [strTruthy] using hne
  simp [internalReminderStep, hrec, hrt, hnone, htr]

theorem internalReminderStep_terminate_past_end (r : InternalReminderDoc)
    (rt : String) (next endD : DateTime) (hrec : r.is_recurring = true)
    (hrt : r.recurrence_type = some rt)
    (hnext : nextDatetime rt r.reminder_datetime = some next)
    (hed : r.recurrence_end_date = some endD)
    (hle : DateTime.le next endD = false) :
    internalReminderStep r true = { r with sent := true, completed := true } := by
  have hne : rt ≠ "" := by
    intro h0
    rw [h0] at hnext
    simp [nextDatetime] at hnext
  have htr : strTruthy (some rt) = true := by
    simpa [strTruthy] using hne
  simp [internalReminderStep, hrec, hrt, hnext, hed, hle, htr]

/-! ## C1: recurrence rollover after a successful dispatch -/

/-- C1 (amended): during the due-reminder scan, a due internal reminder that
is recurring with a recognized `recurrence_type` (one on which `nextDatetime`
succeeds: daily/weekly/monthly/yearly), is not completed, and whose next
occurrence does not exceed a set `recurrence_end_date`, is — after a
successful dispatch — rolled forward in place: `reminder_datetime` becomes the
next occurrence (daily +1 day, weekly +7 days, monthly +1 calendar month,
yearly +1 calendar year), `reminder_time` becomes the next occurrence minus
`minutes_before` minutes, and `sent`/`completed` are reset to false.
Moreover the rollover is evaluated only after a successful dispatch of a
recurring reminder with a present, non-empty `recurrence_type` — but (the
amendment, forced by `recurrence_rollover_counterexample`) *not* only for
non-completed reminders: the scan never inspects `completed`, so a completed
recurring due reminder is rolled over as well. -/
theorem recurrence_rollover_spec :
    (∀ (now : DateTime) (dispatch : InternalReminderDoc → Bool)
       (db : List InternalReminderDoc) (i : Nat)
       (h : i < db.length) (hlen : i < (check_internal_reminders now dispatch db).length)
       (rt : String) (next : DateTime),
      internalDue now (db.get ⟨i, h⟩) = true →
      dispatch (db.get ⟨i, h⟩) = true →
      (db.get ⟨i, h⟩).is_recurring = true →
      (db.get ⟨i, h⟩).completed = false →
      (db.get ⟨i, h⟩).recurrence_type = some rt →
      nextDatetime rt (db.get ⟨i, h⟩).reminder_datetime = some next →
      (∀ endD, (db.get ⟨i, h⟩).recurrence_end_date = some endD →
        DateTime.le next endD = true) →
      ((check_internal_reminders now dispatch db).get ⟨i, hlen⟩ =
        { db.get ⟨i, h⟩ with
          reminder_datetime := next
          reminder_time := DateTime.subMinutes (db.get ⟨i, h⟩).minutes_before next
          sent := false
          completed := false } ∧
       (rt = "daily" → next = DateTime.addDays 1 (db.get ⟨i, h⟩).reminder_datetime) ∧
       (rt = "weekly" → next = DateTime.addDays 7 (db.get ⟨i, h⟩).reminder_datetime) ∧
       (rt = "monthly" → next = DateTime.addOneMonth (db.get ⟨i, h⟩).reminder_datetime) ∧
       (rt = "yearly" → next = DateTime.addOneYear (db.get ⟨i, h⟩).reminder_datetime))) ∧
    (∀ (r : InternalReminderDoc) (dispatchOk : Bool),
      (internalReminderStep r dispatchOk).reminder_datetime ≠ r.reminder_datetime →
      dispatchOk = true ∧ r.is_recurring = true ∧ strTruthy r.recurrence_type = true) := by
  constructor
  · intro now dispatch db i h hlen rt next hdue hdisp hrec hcomp hrt hnext hend
    refine ⟨?_, ?_, ?_, ?_, ?_⟩
    · rw [check_internal_reminders_get now dispatch db i h hlen, if_pos hdue, hdisp]
      exact internalReminderStep_roll (db.get ⟨i, h⟩) rt next hrec hrt hnext hend
    · intro hd
      subst hd
      simpa [nextDatetime] using hnext.symm
    · intro hd
      subst hd
      simpa [nextDatetime] using hnext.symm
    · intro hd
      subst hd
      simpa [nextDatetime] using hnext.symm
    · intro hd
      subst hd
      simpa [nextDatetime] using hnext.symm
  · intro r dispatchOk hchange
    cases dispatchOk with
    | false => exact absurd rfl hchange
    | true =>
      by_cases hc : (r.is_recurring && strTruthy r.recurrence_type) = true
      · exact ⟨rfl, (Bool.and_eq_true _ _).mp hc |>.1, (Bool.and_eq_true _ _).mp hc |>.2⟩
      · exact absurd (by simp [internalReminderStep, hc]) hchange

/-- The spec's worked example for C1: a monthly reminder at 2024-01-15T10:00
with a 10-minute lead and no end date. -/
def wMonthly : InternalReminderDoc :=
  { rid := 5, user_id := 1, title := "Pago", reminder_datetime := ⟨2024, 1, 15, 10, 0⟩,
    reminder_time := ⟨2024, 1, 15, 9, 50⟩, minutes_before := 10, description := none,
    sent := false, completed := false, is_recurring := true,
    recurrence_type := some "monthly", recurrence_end_date := none }

/-- Witness for C1: the scan at 2024-01-15T09:50 rolls `wMonthly` to
2024-02-15T10:00 with `reminder_time` 2024-02-15T09:50 and both flags reset. -/
theorem recurrence_rollover_witness :
    (check_internal_reminders ⟨2024, 1, 15, 9, 50⟩ (fun _ => true) [wMonthly]).get
        ⟨0, by decide⟩ =
      { wMonthly with
        reminder_datetime := ⟨2024, 2, 15, 10, 0⟩
        reminder_time := ⟨2024, 2, 15, 9, 50⟩
        sent := false
        completed := false } := by
  have hmain := (recurrence_rollover_spec.1 ⟨2024, 1, 15, 9, 50⟩ (fun _ => true)
    [wMonthly] 0 (by decide) (by decide) "monthly" ⟨2024, 2, 15, 10, 0⟩
    (by decide) rfl (by decide) (by decide) (by decide) (by decide)
    (fun endD hD => by simp [wMonthly] at hD)).1
  simpa [wMonthly] using hmain

/-- A due, *completed* daily recurring reminder used to refute the
only-for-non-completed clause of C1. -/
def wCompletedDaily : InternalReminderDoc :=
  { rid := 6, user_id := 1, title := "Hecho", reminder_datetime := ⟨2024, 1, 15, 10, 0⟩,
    reminder_time := ⟨2024, 1, 15, 9, 50⟩, minutes_before := 10, description := none,
    sent := false, completed := true, is_recurring := true,
    recurrence_type := some "daily", recurrence_end_date := none }

/-- C1 (counterexample): the scan dispatches a reminder whose `completed`
flag is true (the due query only filters `sent`/`reminder_time`) and still
evaluates the rollover on it — the document is advanced one day and
`completed` is reset to false — contradicting the claim that the rollover is
evaluated only after a successful dispatch of a *non-completed* reminder
(under which this document would at most have been marked `sent = true`). -/
theorem recurrence_rollover_counterexample :
    wCompletedDaily.completed = true ∧
    wCompletedDaily.is_recurring = true ∧
    check_internal_reminders ⟨2024, 1, 15, 9, 50⟩ (fun _ => true) [wCompletedDaily] =
      [{ wCompletedDaily with
         reminder_datetime := ⟨2024, 1, 16, 10, 0⟩
         reminder_time := ⟨2024, 1, 16, 9, 50⟩
         sent := false
         completed := false }] := by
  decide

/-! ## C2: recurrence termination -/

/-- C2 (amended): during the due-reminder scan, a due recurring internal
reminder whose `recurrence_type` is present and non-empty, after a successful
dispatch, has its series terminated — `sent = true` and `completed = true`
with `reminder_datetime` (and every other field) unchanged — in both
termination cases: the recurrence type is unrecognized (`nextDatetime` yields
none), or `recurrence_end_date` is set and the computed next occurrence
exceeds it.  (The amendment, forced by
`recurrence_termination_counterexample`: a recurring reminder whose
`recurrence_type` is absent — Python `None`, which is also not a recognized
type — is treated as non-recurring and only marked `sent = true`, leaving
`completed` unchanged.) -/
theorem recurrence_termination_spec :
    (∀ (now : DateTime) (dispatch : InternalReminderDoc → Bool)
       (db : List InternalReminderDoc) (i : Nat)
       (h : i < db.length) (hlen : i < (check_internal_reminders now dispatch db).length)
       (rt : String),
      internalDue now (db.get ⟨i, h⟩) = true →
      dispatch (db.get ⟨i, h⟩) = true →
      (db.get ⟨i, h⟩).is_recurring = true →
      (db.get ⟨i, h⟩).recurrence_type = some rt →
      rt ≠ "" →
      nextDatetime rt (db.get ⟨i, h⟩).reminder_datetime = none →
      (check_internal_reminders now dispatch db).get ⟨i, hlen⟩ =
        { db.get ⟨i, h⟩ with sent := true, completed := true }) ∧
    (∀ (now : DateTime) (dispatch : InternalReminderDoc → Bool)
       (db : List InternalReminderDoc) (i : Nat)
       (h : i < db.length) (hlen : i < (check_internal_reminders now dispatch db).length)
       (rt : String) (next endD : DateTime),
      internalDue now (db.get ⟨i, h⟩) = true →
      dispatch (db.get ⟨i, h⟩) = true →
      (db.get ⟨i, h⟩).is_recurring = true →
      (db.get ⟨i, h⟩).recurrence_type = some rt →
      nextDatetime rt (db.get ⟨i, h⟩).reminder_datetime = some next →
      (db.get ⟨i, h⟩).recurrence_end_date = some endD →
      DateTime.le next endD = false →
      (check_internal_reminders now dispatch db).get ⟨i, hlen⟩ =
        { db.get ⟨i, h⟩ with sent := true, completed := true }) := by
  constructor
  · intro now dispatch db i h hlen rt hdue hdisp hrec hrt hne hnone
    rw [check_internal_reminders_get now dispatch db i h hlen, if_pos hdue, hdisp]
    exact internalReminderStep_terminate_unrecognized (db.get ⟨i, h⟩) rt hrec hrt hne hnone
  · intro now dispatch db i h hlen rt next endD hdue hdisp hrec hrt hnext hed hle
    rw [check_internal_reminders_get now dispatch db i h hlen, if_pos hdue, hdisp]
    exact internalReminderStep_terminate_past_end (db.get ⟨i, h⟩) rt next endD
      hrec hrt hnext hed hle

/-- A due monthly reminder whose end date precedes the next occurrence (the
spec's termination example: end date 2024-01-20). -/
def wMonthlyEnding : InternalReminderDoc :=
  { rid := 7, user_id := 1, title := "Fin", reminder_datetime := ⟨2024, 1, 15, 10, 0⟩,
    reminder_time := ⟨2024, 1, 15, 9, 50⟩, minutes_before := 10, description := none,
    sent := false, completed := false, is_recurring := true,
    recurrence_type := some "monthly", recurrence_end_date := some ⟨2024, 1, 20, 0, 0⟩ }

/-- Witness for C2: the scan terminates `wMonthlyEnding` — `sent` and
`completed` become true and `reminder_datetime` stays 2024-01-15T10:00. -/
theorem recurrence_termination_witness :
    (check_internal_reminders ⟨2024, 1, 15, 9, 50⟩ (fun _ => true) [wMonthlyEnding]).get
        ⟨0, by decide⟩ =
      { wMonthlyEnding with sent := true, completed := true } := by
  have hmain := recurrence_termination_spec.2 ⟨2024, 1, 15, 9, 50⟩ (fun _ => true)
    [wMonthlyEnding] 0 (by decide) (by decide) "monthly" ⟨2024, 2, 15, 10, 0⟩
    ⟨2024, 1, 20, 0, 0⟩ (by decide) rfl (by decide) (by decide) (by decide)
    (by decide) (by decide)
  simpa [wMonthlyEnding] using hmain

/-- A due recurring reminder with an absent (`None`) `recurrence_type`. -/
def wNoType : InternalReminderDoc :=
  { rid := 8, user_id := 1, title := "Sin tipo", reminder_datetime := ⟨2024, 1, 15, 10, 0⟩,
    reminder_time := ⟨2024, 1, 15, 9, 50⟩, minutes_before := 10, description := none,
    sent := false, completed := false, is_recurring := true,
    recurrence_type := none, recurrence_end_date := none }

/-- C2 (counterexample): a recurring reminder (`is_recurring = true`) whose
`recurrence_type` is absent — hence not a recognized type — is, after a
successful dispatch, only marked `sent = true`: `completed` remains false and
the claimed termination (`completed = true`) does not happen, because the
scan's recurrence branch requires a truthy `recurrence_type`. -/
theorem recurrence_termination_counterexample :
    wNoType.is_recurring = true ∧
    wNoType.recurrence_type = none ∧
    check_internal_reminders ⟨2024, 1, 15, 9, 50⟩ (fun _ => true) [wNoType] =
      [{ wNoType with sent := true }] ∧
    ({ wNoType with sent := true } : InternalReminderDoc).completed = false := by
  decide

/-! ## Helper lemmas for the cascade delete (C5) -/

theorem foldl_dcn_cajitas : ∀ (l : List CajitaDoc) (st : Store),
    (l.foldl deleteCajitaNotas st).cajitas = st.cajitas := by
  intro l
  induction l with
  | nil => intro st; rfl
  | cons a as ih => intro st; rw [List.foldl_cons, ih]; rfl

theorem foldl_dcn_cajas : ∀ (l : List CajitaDoc) (st : Store),
    (l.foldl deleteCajitaNotas st).cajas = st.cajas := by
  intro l
  induction l with
  | nil => intro st; rfl
  | cons a as ih => intro st; rw [List.foldl_cons, ih]; rfl

theorem foldl_dcn_armarios : ∀ (l : List CajitaDoc) (st : Store),
    (l.foldl deleteCajitaNotas st).armarios = st.armarios := by
  intro l
  induction l with
  | nil => intro st; rfl
  | cons a as ih => intro st; rw [List.foldl_cons, ih]; rfl

theorem foldl_dcn_notas_sub : ∀ (l : List CajitaDoc) (st : Store),
    (l.foldl deleteCajitaNotas st).notas ⊆ st.notas := by
  intro l
  induction l with
  | nil => intro st; exact fun x hx => hx
  | cons a as ih =>
    intro st
    rw [List.foldl_cons]
    exact (ih _).trans (List.filter_subset' _)

theorem foldl_dcn_nota_gone : ∀ (l : List CajitaDoc) (st : Store) (ct : CajitaDoc)
    (n : NotaDoc), ct ∈ l → n.parent_type = "cajita" → n.parent_id = ct.ctid →
    n ∉ (l.foldl deleteCajitaNotas st).notas := by
  intro l
  induction l with
  | nil => intro st ct n hct; cases hct
  | cons a as ih =>
    intro st ct n hct hpt hpid
    rw [List.foldl_cons]
    rcases List.mem_cons.mp hct with rfl | hmem
    · intro hcontra
      have hsub := foldl_dcn_notas_sub as (deleteCajitaNotas st ct) hcontra
      rw [show (deleteCajitaNotas st ct).notas =
          removeNotasWithParent "cajita" ct.ctid st.notas from rfl,
        removeNotasWithParent, List.mem_filter] at hsub
      simp [hpt, hpid] at hsub
    · exact ih _ ct n hmem hpt hpid

theorem dcc_cajas (cajaId : Nat) (st : Store) :
    (delete_caja_content cajaId st).cajas = st.cajas := by
  simp only [delete_caja_content]
  rw [foldl_dcn_cajas]

theorem dcc_armarios (cajaId : Nat) (st : Store) :
    (delete_caja_content cajaId st).armarios = st.armarios := by
  simp only [delete_caja_content]
  rw [foldl_dcn_armarios]

theorem dcc_cajitas (cajaId : Nat) (st : Store) :
    (delete_caja_content cajaId st).cajitas =
      st.cajitas.filter (fun ct => !(ct.caja_id == cajaId)) := by
  simp only [delete_caja_content]
  rw [foldl_dcn_cajitas]

theorem dcc_notas_sub (cajaId : Nat) (st : Store) :
    (delete_caja_content cajaId st).notas ⊆ st.notas := by
  simp only [delete_caja_content]
  exact (foldl_dcn_notas_sub _ _).trans (List.filter_subset' _)

theorem dcc_nota_caja_gone (cajaId : Nat) (st : Store) (n : NotaDoc)
    (hpt : n.parent_type = "caja") (hpid : n.parent_id = cajaId) :
    n ∉ (delete_caja_content cajaId st).notas := by
  simp only [delete_caja_content]
  intro hcontra
  have hsub := foldl_dcn_notas_sub _ _ hcontra
  rw [removeNotasWithParent, List.mem_filter] at hsub
  simp [hpt, hpid] at hsub

theorem dcc_nota_cajita_gone (cajaId : Nat) (st : Store) (ct : CajitaDoc)
    (n : NotaDoc) (hct : ct ∈ st.cajitas) (hcid : ct.caja_id = cajaId)
    (hpt : n.parent_type = "cajita") (hpid : n.parent_id = ct.ctid) :
    n ∉ (delete_caja_content cajaId st).notas := by
  simp only [delete_caja_content]
  apply foldl_dcn_nota_gone _ _ ct n _ hpt hpid
  rw [List.mem_filter]
  exact ⟨hct, by simp [hcid]⟩

theorem foldl_dcc_cajas : ∀ (l : List CajaDoc) (st : Store),
    (l.foldl (fun st c => delete_caja_content c.cid st) st).cajas = st.cajas := by
  intro l
  induction l with
  | nil => intro st; rfl
  | cons a as ih => intro st; rw [List.foldl_cons, ih, dcc_cajas]

theorem foldl_dcc_armarios : ∀ (l : List CajaDoc) (st : Store),
    (l.foldl (fun st c => delete_caja_content c.cid st) st).armarios = st.armarios := by
  intro l
  induction l with
  | nil => intro st; rfl
  | cons a as ih => intro st; rw [List.foldl_cons, ih, dcc_armarios]

theorem foldl_dcc_notas_sub : ∀ (l : List CajaDoc) (st : Store),
    (l.foldl (fun st c => delete_caja_content c.cid st) st).notas ⊆ st.notas := by
  intro l
  induction l with
  | nil => intro st; exact fun x hx => hx
  | cons a as ih =>
    intro st
    rw [List.foldl_cons]
    exact (ih _).trans (dcc_notas_sub _ _)

theorem foldl_dcc_cajitas_sub : ∀ (l : List CajaDoc) (st : Store) (x : CajitaDoc),
    x ∈ (l.foldl (fun st c => delete_caja_content c.cid st) st).cajitas →
    x ∈ st.cajitas := by
  intro l
  induction l with
  | nil => intro st x hx; exact hx
  | cons a as ih =>
    intro st x hx
    rw [List.foldl_cons] at hx
    have h1 := ih _ x hx
    rw [dcc_cajitas, List.mem_filter] at h1
    exact h1.1

theorem foldl_dcc_cajita_gone : ∀ (l : List CajaDoc) (st : Store) (x : CajitaDoc)
    (c : CajaDoc), x ∈ (l.foldl (fun st c => delete_caja_content c.cid st) st).cajitas →
    c ∈ l → x.caja_id ≠ c.cid := by
  intro l
  induction l with
  | nil => intro st x c _ hc; cases hc
  | cons a as ih =>
    intro st x c hx hc
    rw [List.foldl_cons] at hx
    rcases List.mem_cons.mp hc with rfl | hmem
    · have h1 := foldl_dcc_cajitas_sub as _ x hx
      rw [dcc_cajitas, List.mem_filter] at h1
      simpa using h1.2
    · exact ih _ x c hx hmem

theorem foldl_dcc_nota_caja_gone : ∀ (l : List CajaDoc) (st : Store) (c : CajaDoc)
    (n : NotaDoc), c ∈ l → n.parent_type = "caja" → n.parent_id = c.cid →
    n ∉ (l.foldl (fun st c => delete_caja_content c.cid st) st).notas := by
  intro l
  induction l with
  | nil => intro st c n hc; cases hc
  | cons a as ih =>
    intro st c n hc hpt hpid
    rw [List.foldl_cons]
    rcases List.mem_cons.mp hc with rfl | hmem
    · intro hcontra
      exact dcc_nota_caja_gone c.cid st n hpt hpid
        (foldl_dcc_notas_sub as _ hcontra)
    · exact ih _ c n hmem hpt hpid

theorem foldl_dcc_nota_cajita_gone : ∀ (l : List CajaDoc) (st : Store)
    (c : CajaDoc) (ct : CajitaDoc) (n : NotaDoc),
    (l.map (fun c => c.cid)).Nodup → c ∈ l → ct ∈ st.cajitas →
    ct.caja_id = c.cid → n.parent_type = "cajita" → n.parent_id = ct.ctid →
    n ∉ (l.foldl (fun st c => delete_caja_content c.cid st) st).notas := by
  intro l
  induction l with
  | nil => intro st c ct n _ hc; cases hc
  | cons a as ih =>
    intro st c ct n hnd hc hct hcid hpt hpid
    rw [List.map_cons, List.nodup_cons] at hnd
    rw [List.foldl_cons]
    rcases List.mem_cons.mp hc with rfl | hmem
    · intro hcontra
      exact dcc_nota_cajita_gone c.cid st ct n hct hcid hpt hpid
        (foldl_dcc_notas_sub as _ hcontra)
    · have hne : c.cid ≠ a.cid := by
        intro heq
        exact hnd.1 (heq ▸ List.mem_map_of_mem (fun c => c.cid) hmem)
      have hct' : ct ∈ (delete_caja_content a.cid st).cajitas := by
        rw [dcc_cajitas, List.mem_filter]
        exact ⟨hct, by simp [hcid, hne]⟩
      exact ih _ c ct n hnd.2 hmem hct' hcid hpt hpid

theorem dac_armarios (armarioId : Nat) (s : Store) :
    (delete_armario_content armarioId s).armarios = s.armarios := by
  simp only [delete_armario_content]
  rw [foldl_dcc_armarios]

theorem dac_cajas (armarioId : Nat) (s : Store) :
    (delete_armario_content armarioId s).cajas =
      s.cajas.filter (fun c => !(c.armario_id == armarioId)) := by
  simp only [delete_armario_content]
  rw [foldl_dcc_cajas]

theorem dac_cajitas (armarioId : Nat) (s : Store) :
    (delete_armario_content armarioId s).cajitas =
      ((s.cajas.filter (fun c => c.armario_id == armarioId)).foldl
        (fun st c => delete_caja_content c.cid st) s).cajitas := by
  simp only [delete_armario_content]

theorem dac_notas (armarioId : Nat) (s : Store) :
    (delete_armario_content armarioId s).notas =
      ((s.cajas.filter (fun c => c.armario_id == armarioId)).foldl
        (fun st c => delete_caja_content c.cid st) s).notas := by
  simp only [delete_armario_content]

/-! ## C5: Armario deletion cascades through all descendants -/

/-- C5: for every Armario and store with per-collection unique ids, a
successful owner delete of the Armario removes the Armario itself, every Caja
under it, every Cajita under those Cajas, and every Nota attached to those
Cajas (parent type `caja`) or Cajitas (parent type `cajita`): after the delete
completes, a lookup by any of the deleted ids finds nothing. -/
theorem delete_armario_cascade_complete
    (s : Store) (uid armarioId : Nat)
    (hndA : (s.armarios.map (fun x => x.aid)).Nodup)
    (hndC : (s.cajas.map (fun x => x.cid)).Nodup)
    (hndT : (s.cajitas.map (fun x => x.ctid)).Nodup)
    (hndN : (s.notas.map (fun x => x.nid)).Nodup)
    (a : ArmarioDoc)
    (ha : s.armarios.find? (fun x => x.aid == armarioId && x.owner_id == uid) = some a) :
    (delete_armario s uid armarioId).out = .ok () ∧
    (delete_armario s uid armarioId).state.armarios.find?
      (fun x => x.aid == armarioId) = none ∧
    (∀ c ∈ s.cajas, c.armario_id = armarioId →
      (delete_armario s uid armarioId).state.cajas.find?
        (fun x => x.cid == c.cid) = none) ∧
    (∀ c ∈ s.cajas, c.armario_id = armarioId →
      ∀ ct ∈ s.cajitas, ct.caja_id = c.cid →
        (delete_armario s uid armarioId).state.cajitas.find?
          (fun x => x.ctid == ct.ctid) = none) ∧
    (∀ c ∈ s.cajas, c.armario_id = armarioId →
      ∀ n ∈ s.notas, n.parent_type = "caja" → n.parent_id = c.cid →
        (delete_armario s uid armarioId).state.notas.find?
          (fun x => x.nid == n.nid) = none) ∧
    (∀ c ∈ s.cajas, c.armario_id = armarioId →
      ∀ ct ∈ s.cajitas, ct.caja_id = c.cid →
        ∀ n ∈ s.notas, n.parent_type = "cajita" → n.parent_id = ct.ctid →
          (delete_armario s uid armarioId).state.notas.find?
            (fun x => x.nid == n.nid) = none) := by
  have hst : (delete_armario s uid armarioId).state =
      { delete_armario_content armarioId s with
        armarios := deleteOne (fun x => x.aid == armarioId)
          (delete_armario_content armarioId s).armarios } := by
    simp only [delete_armario, ha]
  have hout : (delete_armario s uid armarioId).out = .ok () := by
    simp only [delete_armario, ha]
  have hA : (delete_armario s uid armarioId).state.armarios =
      deleteOne (fun x => x.aid == armarioId) s.armarios := by
    rw [hst, dac_armarios]
  have hC : (delete_armario s uid armarioId).state.cajas =
      s.cajas.filter (fun c => !(c.armario_id == armarioId)) := by
    rw [hst]
    exact dac_cajas armarioId s
  have hT : (delete_armario s uid armarioId).state.cajitas =
      ((s.cajas.filter (fun c => c.armario_id == armarioId)).foldl
        (fun st c => delete_caja_content c.cid st) s).cajitas := by
    rw [hst]
    exact dac_cajitas armarioId s
  have hN : (delete_armario s uid armarioId).state.notas =
      ((s.cajas.filter (fun c => c.armario_id == armarioId)).foldl
        (fun st c => delete_caja_content c.cid st) s).notas := by
    rw [hst]
    exact dac_notas armarioId s
  refine ⟨hout, ?_, ?_, ?_, ?_, ?_⟩
  · rw [hA]
    exact find?_deleteOne_eq_none hndA
  · intro c hc hcaid
    rw [hC, List.find?_eq_none]
    intro x hx hbeq
    rw [List.mem_filter] at hx
    have hxc : x = c :=
      List.inj_on_of_nodup_map hndC hx.1 hc (by simpa using hbeq)
    rw [hxc] at hx
    simp [hcaid] at hx
  · intro c hc hcaid ct hct hctc
    rw [hT, List.find?_eq_none]
    intro x hx hbeq
    have hxs := foldl_dcc_cajitas_sub _ _ x hx
    have hxct : x = ct :=
      List.inj_on_of_nodup_map hndT hxs hct (by simpa using hbeq)
    have hgone := foldl_dcc_cajita_gone _ _ x c hx
      (List.mem_filter.mpr ⟨hc, by simp [hcaid]⟩)
    rw [hxct, hctc] at hgone
    exact hgone rfl
  · intro c hc hcaid n hn hpt hpid
    rw [hN, List.find?_eq_none]
    intro x hx hbeq
    have hxs := foldl_dcc_notas_sub _ _ hx
    have hxn : x = n :=
      List.inj_on_of_nodup_map hndN hxs hn (by simpa using hbeq)
    rw [hxn] at hx
    exact foldl_dcc_nota_caja_gone _ _ c n
      (List.mem_filter.mpr ⟨hc, by simp [hcaid]⟩) hpt hpid hx
  · intro c hc hcaid ct hct hctc n hn hpt hpid
    rw [hN, List.find?_eq_none]
    intro x hx hbeq
    have hxs := foldl_dcc_notas_sub _ _ hx
    have hxn : x = n :=
      List.inj_on_of_nodup_map hndN hxs hn (by simpa using hbeq)
    rw [hxn] at hx
    have hndC' : ((s.cajas.filter (fun c => c.armario_id == armarioId)).map
        (fun c => c.cid)).Nodup :=
      List.Nodup.sublist (List.Sublist.map _ (List.filter_sublist _)) hndC
    exact foldl_dcc_nota_cajita_gone _ _ c ct n hndC'
      (List.mem_filter.mpr ⟨hc, by simp [hcaid]⟩) hct hctc hpt hpid hx

/-- Witness for C5: deleting user 1's armario 1 on `demoStore` removes
caja 10, cajita 20, and notas 30 and 31, and lookups by all the deleted ids
find nothing. -/
theorem delete_armario_cascade_complete_witness :
    (delete_armario demoStore 1 1).out = .ok () ∧
    (delete_armario demoStore 1 1).state.armarios.find?
      (fun x => x.aid == 1) = none ∧
    (delete_armario demoStore 1 1).state.cajas.find?
      (fun x => x.cid == demoCaja.cid) = none ∧
    (delete_armario demoStore 1 1).state.cajitas.find?
      (fun x => x.ctid == demoCajita.ctid) = none ∧
    (delete_armario demoStore 1 1).state.notas.find?
      (fun x => x.nid == demoNotaCaja.nid) = none ∧
    (delete_armario demoStore 1 1).state.notas.find?
      (fun x => x.nid == demoNotaCajita.nid) = none := by
  have hmain := delete_armario_cascade_complete demoStore 1 1
    (by decide) (by decide) (by decide) (by decide) demoArmario (by decide)
  refine ⟨hmain.1, hmain.2.1, ?_, ?_, ?_, ?_⟩
  · exact hmain.2.2.1 demoCaja (by decide) (by decide)
  · exact hmain.2.2.2.1 demoCaja (by decide) (by decide) demoCajita (by decide) (by decide)
  · exact hmain.2.2.2.2.1 demoCaja (by decide) (by decide) demoNotaCaja (by decide)
      (by decide) (by decide)
  · exact hmain.2.2.2.2.2 demoCaja (by decide) (by decide) demoCajita (by decide)
      (by decide) demoNotaCajita (by decide) (by decide) (by decide)
